import Mathlib

/-!
Verification of the document-to-ledger extraction and transformation core of
the kaigen-automate repository: decimal amount parsing, entity validation,
and the journal row builders that expand `ImportPermit` / `Invoice` entities
into balanced double-entry journal rows for a spreadsheet ledger.

Python `Decimal` values are embedded as `ℚ` (exact). CPython `float(...)`
conversion (used by the row builders when emitting cell values) is embedded
as `pyFloat`: round-to-nearest, ties-to-even, 53-bit significand — the
IEEE-754 binary64 rounding in the normal range. Overflow (magnitudes ≥ 2^1024)
and gradual underflow (magnitudes < 2^-1022) are outside the modelled range;
all currency amounts of interest lie far inside it.
-/

/-- Round a rational to the nearest integer, ties going to the even integer
(the rounding used by IEEE-754 round-to-nearest-even on the significand). -/
def roundHalfEven (q : ℚ) : ℤ :=
  if q - ⌊q⌋ < 1/2 then ⌊q⌋
  else if 1/2 < q - ⌊q⌋ then ⌊q⌋ + 1
  else if ⌊q⌋ % 2 = 0 then ⌊q⌋ else ⌊q⌋ + 1

/-- Magnitude part of the binary64 rounding: for `a > 0`, scale `a` so that the
significand occupies 53 bits, round it half-to-even, and scale back. -/
def pyFloatMag (a : ℚ) : ℚ :=
  (roundHalfEven (a * (2:ℚ) ^ ((52:ℤ) - Int.log 2 a)) : ℚ) * (2:ℚ) ^ (Int.log 2 a - 52)

/-- Model of CPython `float(x)` applied to an exact decimal (`Decimal` → IEEE-754
binary64, round-to-nearest ties-to-even), for values in the normal range. -/
def pyFloat (q : ℚ) : ℚ :=
  if q = 0 then 0
  else if q < 0 then -pyFloatMag (-q)
  else pyFloatMag q

/-- Model of Python `sum(...)` over a sequence of binary64 floats: a left fold
that rounds after each addition (the initial `0 + x` addition included). -/
def floatSum (l : List ℚ) : ℚ :=
  l.foldl (fun acc x => pyFloat (acc + x)) 0

/-! ### String and number parsing helpers (models of Python builtins) -/

/-- Strip leading and trailing whitespace from a character list (model of
Python `str.strip()` for the ASCII whitespace relevant here). -/
def stripWs (cs : List Char) : List Char :=
  ((cs.dropWhile Char.isWhitespace).reverse.dropWhile Char.isWhitespace).reverse

/-- Accumulate a run of decimal digits allowing single underscores between
digits (PEP 515 grouping accepted by `int`/`Decimal`), returning the value and
the number of digits consumed. An empty run yields `(0, 0)`; a malformed run
(non-digit, leading/trailing/double underscore) yields `none`. -/
def digitRunAux (acc : ℕ) (count : ℕ) : List Char → Option (ℕ × ℕ)
  | [] => some (acc, count)
  | '_' :: c :: rest =>
    if c.isDigit then digitRunAux (10 * acc + (c.toNat - 48)) (count + 1) rest else none
  | c :: rest =>
    if c.isDigit then digitRunAux (10 * acc + (c.toNat - 48)) (count + 1) rest else none

/-- Parse a (possibly empty) digit run with underscore grouping. -/
def digitRun : List Char → Option (ℕ × ℕ)
  | [] => some (0, 0)
  | c :: rest =>
    if c.isDigit then digitRunAux (c.toNat - 48) 1 rest else none

/-- Model of Python `int(s)` on strings: surrounding whitespace is ignored, an
optional sign is followed by a non-empty digit run (underscore grouping
allowed). Anything else raises `ValueError`, modelled as `none`. Non-ASCII
digit forms are outside the modelled scope. -/
def pyIntParse (s : String) : Option ℤ :=
  match stripWs s.toList with
  | '+' :: rest =>
    match digitRun rest with
    | some (v, d) => if d = 0 then none else some (v : ℤ)
    | none => none
  | '-' :: rest =>
    match digitRun rest with
    | some (v, d) => if d = 0 then none else some (-(v : ℤ))
    | none => none
  | rest =>
    match digitRun rest with
    | some (v, d) => if d = 0 then none else some (v : ℤ)
    | none => none

/-- Split a character list at the first character satisfying `p`; the second
component is `none` when no such character occurs. -/
def breakAt (p : Char → Bool) : List Char → List Char × Option (List Char)
  | [] => ([], none)
  | c :: rest =>
    if p c then ([], some rest)
    else
      let r := breakAt p rest
      (c :: r.1, r.2)

/-- Model of Python `decimal.Decimal(s)` restricted to finite numeric
literals: optional surrounding whitespace, optional sign, integer and/or
fractional digit runs around an optional dot, and an optional exponent.
Special values (`NaN`, `Infinity`) and non-ASCII digits are outside the
modelled scope (no caller in this code base feeds them). `none` models the
`InvalidOperation` exception. -/
def pyDecimalParse (s : String) : Option ℚ :=
  let cs := stripWs s.toList
  let signAndRest : ℚ × List Char :=
    match cs with
    | '+' :: r => (1, r)
    | '-' :: r => (-1, r)
    | r => (1, r)
  let mantAndExp := breakAt (fun c => c = 'e' || c = 'E') signAndRest.2
  let expVal : Option ℤ :=
    match mantAndExp.2 with
    | none => some 0
    | some ecs =>
      let esignAndRest : ℤ × List Char :=
        match ecs with
        | '+' :: r => (1, r)
        | '-' :: r => (-1, r)
        | r => (1, r)
      match digitRun esignAndRest.2 with
      | some (v, d) => if d = 0 then none else some (esignAndRest.1 * v)
      | none => none
  let intAndFrac := breakAt (fun c => c = '.') mantAndExp.1
  match digitRun intAndFrac.1, digitRun (intAndFrac.2.getD []), expVal with
  | some (iv, idig), some (fv, fdig), some e =>
    if idig = 0 && fdig = 0 then none
    else
      let mant : ℚ := ((iv * 10 ^ fdig + fv : ℕ) : ℚ)
      let scale : ℤ := e - fdig
      some (if 0 ≤ scale then signAndRest.1 * mant * ((10 ^ scale.toNat : ℕ) : ℚ)
            else signAndRest.1 * mant / ((10 ^ (-scale).toNat : ℕ) : ℚ))
  | _, _, _ => none

/-- Prefix test on character lists. -/
def isPrefixChars : List Char → List Char → Bool
  | [], _ => true
  | _ :: _, [] => false
  | p :: ps, c :: cs => p = c && isPrefixChars ps cs

/-- Occurrence of `pat` as a contiguous subsequence of a character list. -/
def containsSeqChars (pat : List Char) : List Char → Bool
  | [] => pat.isEmpty
  | c :: rest => isPrefixChars pat (c :: rest) || containsSeqChars pat rest

/-- Substring containment test (model of Python `pat in s`). -/
def strContainsSub (s pat : String) : Bool :=
  containsSeqChars pat.toList s.toList

/-- Model of Python `str.strip()` on a string. -/
def strTrim (s : String) : String :=
  ⟨stripWs s.toList⟩

/-- Removal of every occurrence of a character (model of Python
`str.replace(c, "")` for a single-character pattern, the only form the
source uses). -/
def removeChar (c : Char) (s : String) : String :=
  ⟨s.toList.filter (fun x => x ≠ c)⟩

/-- Test whether the last character is `c` (model of `str.endswith(c)` for a
single-character suffix, the only form the source uses). -/
def lastCharIs (c : Char) (s : String) : Bool :=
  s.toList.getLast? = some c

/-- Removal of the last character (model of `s[:-1]`). -/
def dropLastChar (s : String) : String :=
  ⟨s.toList.dropLast⟩

/-! ### Calendar dates -/

/-- Calendar date (model of Python `datetime.date`). -/
structure Date where
  year : ℕ
  month : ℕ
  day : ℕ
deriving DecidableEq, Repr

/-- Gregorian leap-year rule used by `datetime`. -/
def isLeap (y : ℕ) : Bool :=
  (y % 4 = 0 && y % 100 != 0) || y % 400 = 0

/-- Number of days in a month (model of `calendar`/`datetime` validation). -/
def daysInMonth (y m : ℕ) : ℕ :=
  if m = 2 then (if isLeap y then 29 else 28)
  else if m = 4 || m = 6 || m = 9 || m = 11 then 30
  else 31

/-- Split a character list at every occurrence of `c` (model of
`str.split(c)` as used on the dash-separated date). -/
def splitOnChar (c : Char) : List Char → List (List Char)
  | [] => [[]]
  | x :: rest =>
    match splitOnChar c rest with
    | [] => [[]]
    | h :: t => if x = c then [] :: h :: t else (x :: h) :: t

/-- Parse a digit-only character run of between `minLen` and `maxLen`
characters. -/
def parseDigitsNat (cs : List Char) (minLen maxLen : ℕ) : Option ℕ :=
  if cs.length < minLen || maxLen < cs.length || !(cs.all Char.isDigit) then none
  else some (cs.foldl (fun a c => 10 * a + (c.toNat - 48)) 0)

/-- Model of `datetime.strptime(s, "%Y-%m-%d").date()`: a 1-4 digit year, a
1-2 digit month and a 1-2 digit day separated by dashes, with `datetime`'s
range validation (year ≥ 1, month 1-12, day within the month). `none` models
the `ValueError` raised on mismatch. -/
def parseDateYMD (s : String) : Option Date :=
  match splitOnChar '-' s.toList with
  | [ys, ms, ds] =>
    match parseDigitsNat ys 1 4, parseDigitsNat ms 1 2, parseDigitsNat ds 1 2 with
    | some y, some m, some d =>
      if 1 ≤ y ∧ 1 ≤ m ∧ m ≤ 12 ∧ 1 ≤ d ∧ d ≤ daysInMonth y m then some ⟨y, m, d⟩
      else none
    | _, _, _ => none
  | _ => none

/-- Zero-pad a numeral to two digits (as `strftime` `%m` / `%d` do). -/
def pad2 (n : ℕ) : String :=
  if n < 10 then "0" ++ toString n else toString n

/-- Zero-pad a numeral to four digits (as `strftime` `%Y` does for the
four-digit years that occur here). -/
def pad4 (n : ℕ) : String :=
  if n < 10 then "000" ++ toString n
  else if n < 100 then "00" ++ toString n
  else if n < 1000 then "0" ++ toString n
  else toString n

/-- Model of `date.strftime("%Y/%m/%d")`. -/
def formatDate (d : Date) : String :=
  pad4 d.year ++ "/" ++ pad2 d.month ++ "/" ++ pad2 d.day

/-- Lexicographic strict comparison of dates (model of Python `date.__gt__`). -/
def dateGT (a b : Date) : Bool :=
  if a.year ≠ b.year then decide (b.year < a.year)
  else if a.month ≠ b.month then decide (b.month < a.month)
  else decide (b.day < a.day)

/-- Truth test for an `Except` being an error (model of "the call raised"). -/
def isErr {ε α : Type} : Except ε α → Bool
  | Except.error _ => true
  | Except.ok _ => false

deriving instance DecidableEq for Except

/-! ### Domain entities and their construction-time validation

Entities are embedded as plain structures; the `__post_init__` validation of
each dataclass is embedded as an explicit `Except`-valued function run at
construction (`mk...`), mirroring the source's ordered `if`/`raise` chain.
The `pdf_path.exists()` filesystem check is abstracted as a `pdfExists`
boolean carried by the entity. Interpolated values in the Japanese error
messages are elided; only the message's fixed prefix is kept. -/

/-- Line item of an import permit (`ImportPermitItem` dataclass). -/
structure ImportPermitItem where
  item_name : String
  amount : ℚ
  quantity : ℚ
  unit : String
deriving DecidableEq, Repr

/-- Validation from `ImportPermitItem.__post_init__`. -/
def ImportPermitItem.validate (it : ImportPermitItem) : Except String Unit :=
  if it.item_name = "" then Except.error "項目名が空です"
  else if it.amount < 0 then Except.error "金額が負の値です"
  else if it.quantity < 0 then Except.error "数量が負の値です"
  else Except.ok ()

/-- Construction of an `ImportPermitItem`, running the dataclass validation. -/
def mkImportPermitItem (nm : String) (amount quantity : ℚ) (u : String) :
    Except String ImportPermitItem :=
  match ImportPermitItem.validate ⟨nm, amount, quantity, u⟩ with
  | Except.error e => Except.error e
  | Except.ok _ => Except.ok ⟨nm, amount, quantity, u⟩

/-- Line item of an invoice (`InvoiceItem` dataclass). -/
structure InvoiceItem where
  item_name : String
  amount : ℚ
  quantity : ℚ
  unit : String
deriving DecidableEq, Repr

/-- Validation from `InvoiceItem.__post_init__`. -/
def InvoiceItem.validate (it : InvoiceItem) : Except String Unit :=
  if it.item_name = "" then Except.error "項目名が空です"
  else if it.amount < 0 then Except.error "金額が負の値です"
  else if it.quantity < 0 then Except.error "数量が負の値です"
  else Except.ok ()

/-- Construction of an `InvoiceItem`, running the dataclass validation. -/
def mkInvoiceItem (nm : String) (amount quantity : ℚ) (u : String) :
    Except String InvoiceItem :=
  match InvoiceItem.validate ⟨nm, amount, quantity, u⟩ with
  | Except.error e => Except.error e
  | Except.ok _ => Except.ok ⟨nm, amount, quantity, u⟩

/-- Import permit entity (`ImportPermit` dataclass). -/
structure ImportPermit where
  permit_number : String
  issue_date : Date
  importer_name : String
  tracking_number : String
  total_amount : ℚ
  customs_duty : ℚ
  consumption_tax : ℚ
  local_consumption_tax : ℚ
  subtotal : ℚ
  items : List ImportPermitItem
  pdfExists : Bool
deriving DecidableEq, Repr

/-- Validation from `ImportPermit.__post_init__`: the PDF existence check is
followed by negativity checks on `total_amount`, `customs_duty`,
`consumption_tax` and `local_consumption_tax` — and on no other field. -/
def importPermitValidate (p : ImportPermit) : Except String Unit :=
  if p.pdfExists = false then Except.error "PDFファイルが存在しません"
  else if p.total_amount < 0 then Except.error "合計金額が負の値です"
  else if p.customs_duty < 0 then Except.error "関税額が負の値です"
  else if p.consumption_tax < 0 then Except.error "消費税額が負の値です"
  else if p.local_consumption_tax < 0 then Except.error "地方消費税額が負の値です"
  else Except.ok ()

/-- Invoice entity (`Invoice` dataclass). -/
structure Invoice where
  invoice_number : String
  issue_date : Date
  customer_name : String
  tracking_number : String
  total_amount : ℚ
  tax_amount : ℚ
  subtotal : ℚ
  payment_due_date : Date
  items : List InvoiceItem
  pdfExists : Bool
deriving DecidableEq, Repr

/-- Validation from `Invoice.__post_init__`: the PDF existence check is
followed by a negativity check on `total_amount` alone and the
`issue_date > payment_due_date` check — and by no other check. -/
def invoiceValidate (inv : Invoice) : Except String Unit :=
  if inv.pdfExists = false then Except.error "PDFファイルが存在しません"
  else if inv.total_amount < 0 then Except.error "合計金額が負の値です"
  else if dateGT inv.issue_date inv.payment_due_date then
    Except.error "請求日が支払期限より後です"
  else Except.ok ()

/-! ### Journal row construction (`GoogleSheetsService`)

A spreadsheet cell holds a string, an integer, or a binary64 float (the three
kinds of values placed into the 27-column row lists by the source). The
ledger's column A (read back to compute the next transaction number) is a
list of single-cell rows: `none` models an empty row, `some s` a row whose
first cell has value `s`. -/

/-- Value written into one spreadsheet cell. -/
inductive Cell where
  | s : String → Cell
  | i : ℤ → Cell
  | f : ℚ → Cell
deriving DecidableEq, Repr

/-- Computation of the next transaction number from the values of ledger
column A (`A2:A`): fold over the rows, skipping empty rows and values
`int(...)` rejects, keeping the running maximum (seeded with 0), plus one. -/
def nextTransactionNo (colA : List (Option String)) : ℤ :=
  (colA.foldl
    (fun acc cell =>
      match cell with
      | none => acc
      | some s =>
        match pyIntParse s with
        | none => acc
        | some v => if acc < v then v else acc)
    0) + 1

/-- Summary prefix for import-permit journal rows. -/
def permitSummaryBase (p : ImportPermit) : String :=
  "輸入許可書 " ++ p.permit_number

/-- Memo prefix for import-permit journal rows. -/
def permitMemoBase (p : ImportPermit) : String :=
  "輸入許可書番号: " ++ p.permit_number ++ ", 追跡番号: " ++ p.tracking_number

/-- Debit legs collected for an import permit: (account, tax category, float
amount, summary, memo), emitted in the fixed order customs duty, consumption
tax, local consumption tax, each only when its `Decimal` amount is > 0. The
amount is converted through `float(...)` at this point, as in the source. -/
def importPermitDebitEntries (p : ImportPermit) :
    List (String × String × ℚ × String × String) :=
  (if 0 < p.customs_duty then
    [("租税公課", "", pyFloat p.customs_duty,
      permitSummaryBase p ++ " 関税", permitMemoBase p ++ " (関税)")]
   else []) ++
  (if 0 < p.consumption_tax then
    [("仮払消費税", "共-輸仕-消税 7.8%", pyFloat p.consumption_tax,
      permitSummaryBase p ++ " 消費税", permitMemoBase p ++ " (消費税)")]
   else []) ++
  (if 0 < p.local_consumption_tax then
    [("仮払消費税", "共-輸仕-地税 2.2%", pyFloat p.local_consumption_tax,
      permitSummaryBase p ++ " 地方消費税", permitMemoBase p ++ " (地方消費税)")]
   else [])

/-- One 27-column debit row of an import-permit block. -/
def permitDebitRow (p : ImportPermit) (txNo : ℤ) :
    String × String × ℚ × String × String → List Cell
  | (acct, taxcat, amt, summary, memo) =>
    [Cell.i txNo, Cell.s (formatDate p.issue_date),
     Cell.s acct, Cell.s "", Cell.s "", Cell.s "", Cell.s taxcat, Cell.s "",
     Cell.f amt, Cell.i 0,
     Cell.s "", Cell.s "", Cell.s "", Cell.s "", Cell.s "", Cell.s "",
     Cell.s "", Cell.i 0,
     Cell.s summary, Cell.s memo,
     Cell.s "", Cell.s "", Cell.s "", Cell.s "", Cell.s "", Cell.s "", Cell.s ""]

/-- The single 27-column credit row of an import-permit block. -/
def permitCreditRow (p : ImportPermit) (txNo : ℤ) (total : ℚ) : List Cell :=
  [Cell.i txNo, Cell.s (formatDate p.issue_date),
   Cell.s "", Cell.s "", Cell.s "", Cell.s "", Cell.s "", Cell.s "",
   Cell.s "", Cell.i 0,
   Cell.s "普通預金", Cell.s "埼玉県信用金庫", Cell.s "", Cell.s "", Cell.s "",
   Cell.s "", Cell.f total, Cell.i 0,
   Cell.s (permitSummaryBase p ++ " 支払"), Cell.s (permitMemoBase p ++ " (支払)"),
   Cell.s "", Cell.s "", Cell.s "", Cell.s "", Cell.s "", Cell.s "", Cell.s ""]

/-- Journal row block built by `write_import_permit` for one permit: the
qualifying debit rows followed by one credit row carrying the float sum of
the debit amounts, the credit row present exactly when that sum is > 0. -/
def buildImportPermitRows (p : ImportPermit) (txNo : ℤ) : List (List Cell) :=
  (importPermitDebitEntries p).map (permitDebitRow p txNo) ++
    (if 0 < floatSum ((importPermitDebitEntries p).map (fun e => e.2.2.1)) then
      [permitCreditRow p txNo
        (floatSum ((importPermitDebitEntries p).map (fun e => e.2.2.1)))]
     else [])

/-- Outcome of `write_import_permit` on the pure level: `none` models the
early `return` that appends nothing (with only a warning logged), `some rows`
models appending the block. -/
def writeImportPermitOutcome (p : ImportPermit) (colA : List (Option String)) :
    Option (List (List Cell)) :=
  let rows := buildImportPermitRows p (nextTransactionNo colA)
  if rows = [] then none else some rows

/-- Summary prefix for invoice journal rows. -/
def invoiceSummaryBase (inv : Invoice) : String :=
  "請求書 " ++ inv.invoice_number

/-- Memo prefix for invoice journal rows. -/
def invoiceMemoBase (inv : Invoice) : String :=
  "請求書番号: " ++ inv.invoice_number ++ ", 追跡番号: " ++ inv.tracking_number

/-- The 27-column debit row of an invoice block (account 支払手数料). -/
def invoiceDebitRow (inv : Invoice) (txNo : ℤ) (amt : ℚ) : List Cell :=
  [Cell.i txNo, Cell.s (formatDate inv.issue_date),
   Cell.s "支払手数料", Cell.s "", Cell.s "", Cell.s "", Cell.s "", Cell.s "",
   Cell.f amt, Cell.i 0,
   Cell.s "", Cell.s "", Cell.s "", Cell.s "", Cell.s "", Cell.s "",
   Cell.s "", Cell.i 0,
   Cell.s (invoiceSummaryBase inv), Cell.s (invoiceMemoBase inv),
   Cell.s "", Cell.s "", Cell.s "", Cell.s "", Cell.s "", Cell.s "", Cell.s ""]

/-- The 27-column credit row of an invoice block (普通預金 / 海源). -/
def invoiceCreditRow (inv : Invoice) (txNo : ℤ) (amt : ℚ) : List Cell :=
  [Cell.i txNo, Cell.s (formatDate inv.issue_date),
   Cell.s "", Cell.s "", Cell.s "", Cell.s "", Cell.s "", Cell.s "",
   Cell.s "", Cell.i 0,
   Cell.s "普通預金", Cell.s "海源", Cell.s "", Cell.s "", Cell.s "",
   Cell.s "", Cell.f amt, Cell.i 0,
   Cell.s (invoiceSummaryBase inv ++ " 支払"), Cell.s (invoiceMemoBase inv ++ " (支払)"),
   Cell.s "", Cell.s "", Cell.s "", Cell.s "", Cell.s "", Cell.s "", Cell.s ""]

/-- Journal row block built by `write_invoice`: the pair of debit and credit
rows for `float(total_amount)`, emitted only when that float is > 0. -/
def buildInvoiceRows (inv : Invoice) (txNo : ℤ) : List (List Cell) :=
  if 0 < pyFloat inv.total_amount then
    [invoiceDebitRow inv txNo (pyFloat inv.total_amount),
     invoiceCreditRow inv txNo (pyFloat inv.total_amount)]
  else []

/-- Outcome of `write_invoice` on the pure level (`none` = nothing appended). -/
def writeInvoiceOutcome (inv : Invoice) (colA : List (Option String)) :
    Option (List (List Cell)) :=
  let rows := buildInvoiceRows inv (nextTransactionNo colA)
  if rows = [] then none else some rows

/-! ### Import-permit oracle JSON post-processing (`GeminiImportPermitParser`)

The oracle's decoded JSON response is embedded as the inductive `J`. The
deterministic post-processing of `GeminiImportPermitParser.parse` (everything
after `json.loads`) is embedded as `geminiParse`; all exceptions raised along
the way (including those the outer handler re-wraps as `ValueError`) are
modelled as `Except.error`. -/

/-- Decoded JSON value. -/
inductive J where
  | null : J
  | bool : Bool → J
  | num : ℚ → J
  | str : String → J
  | arr : List J → J
  | obj : List (String × J) → J

/-- Dictionary lookup (`dict.get(k)` returning `None` as `none`). -/
def jLookup (fields : List (String × J)) (k : String) : Option J :=
  (fields.find? (fun kv => kv.1 = k)).map (fun kv => kv.2)

/-- Model of `str(d.get(k, dflt))` for the string-valued fields: absent keys
give the default; numbers print as Python prints them (only the integer case
is modelled exactly — container/float reprs are not exercised by the oracle
schema and are represented by placeholders). -/
def jGetStr (fields : List (String × J)) (k : String) (dflt : String) : String :=
  match jLookup fields k with
  | none => dflt
  | some (J.str s) => s
  | some (J.num q) => if q.den = 1 then toString q.num else "<float-repr>"
  | some J.null => "None"
  | some (J.bool true) => "True"
  | some (J.bool false) => "False"
  | some (J.arr _) => "<list-repr>"
  | some (J.obj _) => "<dict-repr>"

/-- Errors raised by `_parse_decimal`, kept structured so that the field name
and the offending raw value named in the message stay visible. -/
inductive DErr where
  | cannotConvert : String → String → DErr
  | invalidValue : String → DErr
deriving DecidableEq, Repr

/-- Rendering of a `DErr` to the Python message text. -/
def dErrMsg : DErr → String
  | DErr.cannotConvert field raw => field ++ " を数値に変換できません: " ++ raw
  | DErr.invalidValue field => field ++ " の値が不正です: "

/-- Cleaning step of the string branch of
`GeminiImportPermitParser._parse_decimal`: strip whitespace, then remove the
characters `,`, `¥` and `円` (in the source, successive `str.replace` calls). -/
def pyCleaned (s : String) : String :=
  removeChar '円' (removeChar '¥' (removeChar ',' (strTrim s)))

/-- Model of the cleaned-string selection of `_parse_decimal`: the default is
substituted when the cleaned string is empty or a bare dash. -/
def cleanedOrDefault (dflt s : String) : String :=
  if pyCleaned s = "" ∨ pyCleaned s = "-" ∨ pyCleaned s = "--" then dflt else pyCleaned s

/-- String branch body of `_parse_decimal` continued: parse the selected
string as a `Decimal`, raising an error naming the field and the raw value on
failure. -/
def parseDecimalStr (field dflt s : String) : Except DErr ℚ :=
  match pyDecimalParse (cleanedOrDefault dflt s) with
  | some q => Except.ok q
  | none => Except.error (DErr.cannotConvert field s)

/-- Full `_parse_decimal` on a JSON value (or `none` for an absent key):
`None` falls back to the default string; numeric values pass through
`Decimal(str(value))` losslessly; strings go through the string branch; bools
(an `int` instance whose `str` is not a numeral) and containers raise. -/
def parseDecimalJ (field dflt : String) (v : Option J) : Except DErr ℚ :=
  match v with
  | none => parseDecimalStr field dflt dflt
  | some J.null => parseDecimalStr field dflt dflt
  | some (J.num q) => Except.ok q
  | some (J.bool _) => Except.error (DErr.invalidValue field)
  | some (J.str s) => parseDecimalStr field dflt s
  | some (J.arr _) => Except.error (DErr.invalidValue field)
  | some (J.obj _) => Except.error (DErr.invalidValue field)

/-- Lift a `_parse_decimal` result into the parser's error monad. -/
def liftDErr (e : Except DErr ℚ) : Except String ℚ :=
  match e with
  | Except.ok q => Except.ok q
  | Except.error er => Except.error (dErrMsg er)

/-- One element of the oracle's `items` list turned into an
`ImportPermitItem` (with the dataclass validation run at construction).
A non-object element raises (`item_data.get` does not exist on it). -/
def geminiItemOfJ (item : J) : Except String ImportPermitItem :=
  match item with
  | J.obj fields =>
    match parseDecimalJ "items.amount" "0" (jLookup fields "amount") with
    | Except.error e => Except.error (dErrMsg e)
    | Except.ok amount =>
      match parseDecimalJ "items.quantity" "1" (jLookup fields "quantity") with
      | Except.error e => Except.error (dErrMsg e)
      | Except.ok qty =>
        mkImportPermitItem (jGetStr fields "item_name" "") amount qty
          (jGetStr fields "unit" "件")
  | _ => Except.error "項目がオブジェクトではありません"

/-- The oracle's `items` list processed in order. -/
def geminiItemsOfJ : List J → Except String (List ImportPermitItem)
  | [] => Except.ok []
  | x :: xs =>
    match geminiItemOfJ x with
    | Except.error e => Except.error e
    | Except.ok it =>
      match geminiItemsOfJ xs with
      | Except.error e => Except.error e
      | Except.ok rest => Except.ok (it :: rest)

/-- The iterable obtained from `data.get("items", [])`: an absent key gives
the empty list; a list is iterated; iterating a non-empty string yields
characters without a `.get` attribute (raising on the first one) while the
empty string yields nothing; other values are not iterable and raise. -/
def geminiItemsJ (fields : List (String × J)) : Except String (List J) :=
  match jLookup fields "items" with
  | none => Except.ok []
  | some (J.arr l) => Except.ok l
  | some (J.str s) => if s = "" then Except.ok [] else Except.error "項目の形式が不正です"
  | some _ => Except.error "項目の形式が不正です"

/-- Extraction of `issue_date` (run after the items loop): only a non-empty
string parsing as `YYYY-MM-DD` succeeds; an absent key or any falsy value
raises the missing-date error, and everything else makes `strptime` raise. -/
def geminiIssueDateOf : Option J → Except String Date
  | some (J.str s) =>
    if s = "" then Except.error "発行日が抽出できませんでした"
    else
      match parseDateYMD s with
      | some d => Except.ok d
      | none => Except.error "発行日の形式が不正です"
  | some J.null => Except.error "発行日が抽出できませんでした"
  | some (J.num q) =>
    if q = 0 then Except.error "発行日が抽出できませんでした"
    else Except.error "発行日の形式が不正です"
  | some (J.bool b) =>
    if b then Except.error "発行日の形式が不正です"
    else Except.error "発行日が抽出できませんでした"
  | some (J.arr l) =>
    if l.isEmpty then Except.error "発行日が抽出できませんでした"
    else Except.error "発行日の形式が不正です"
  | some (J.obj l) =>
    if l.isEmpty then Except.error "発行日が抽出できませんでした"
    else Except.error "発行日の形式が不正です"
  | none => Except.error "発行日が抽出できませんでした"

/-- Extraction of `issue_date` from the oracle JSON (run after the items
loop). -/
def geminiIssueDate (fields : List (String × J)) : Except String Date :=
  geminiIssueDateOf (jLookup fields "issue_date")

/-- Error-propagating sequencing (the implicit control flow of the Python
statement sequence: an exception aborts the rest of the function). -/
def exBind {α β : Type} (x : Except String α) (f : α → Except String β) :
    Except String β :=
  match x with
  | Except.error e => Except.error e
  | Except.ok a => f a

/-- Deterministic post-processing of the oracle's decoded JSON into a
validated `ImportPermit` (the tail of `GeminiImportPermitParser.parse`). The
enclosing call passes the PDF path whose existence is abstracted as
`pdfExists`. -/
def geminiParseObj (fields : List (String × J)) (pdfExists : Bool) :
    Except String ImportPermit :=
  exBind (geminiItemsJ fields) (fun itemsJ =>
  exBind (geminiItemsOfJ itemsJ) (fun items =>
  exBind (geminiIssueDate fields) (fun issueDate =>
  exBind (liftDErr (parseDecimalJ "total_amount" "0"
      (jLookup fields "total_amount"))) (fun total =>
  exBind (liftDErr (parseDecimalJ "customs_duty" "0"
      (jLookup fields "customs_duty"))) (fun duty =>
  exBind (liftDErr (parseDecimalJ "consumption_tax" "0"
      (jLookup fields "consumption_tax"))) (fun ctax =>
  exBind (liftDErr (parseDecimalJ "local_consumption_tax" "0"
      (jLookup fields "local_consumption_tax"))) (fun ltax =>
  exBind (liftDErr (parseDecimalJ "subtotal" "0"
      (jLookup fields "subtotal"))) (fun sub =>
  exBind (importPermitValidate
      ⟨jGetStr fields "permit_number" "", issueDate,
       jGetStr fields "importer_name" "", jGetStr fields "tracking_number" "",
       total, duty, ctax, ltax, sub, items, pdfExists⟩) (fun _ =>
  Except.ok
      ⟨jGetStr fields "permit_number" "", issueDate,
       jGetStr fields "importer_name" "", jGetStr fields "tracking_number" "",
       total, duty, ctax, ltax, sub, items, pdfExists⟩)))))))))

/-- Deterministic post-processing entry point: a decoded response that is not
a JSON object raises when `.get` is called on it. -/
def geminiParse (data : J) (pdfExists : Bool) : Except String ImportPermit :=
  match data with
  | J.obj fields => geminiParseObj fields pdfExists
  | _ => Except.error "JSONがオブジェクトではありません"

/-! ### Invoice line-item extraction (`InvoiceParser._extract_invoice_items`)

A pdfplumber table is a list of rows, each a list of cells; a cell is
`none` (a `None` cell) or `some s`. -/

/-- Model of `str(cell).strip() if cell else dflt` on a possibly missing,
possibly `None`, possibly empty cell. -/
def rowCellStripped (row : List (Option String)) (i : ℕ) (dflt : String) : String :=
  match row.getD i none with
  | some s => if s = "" then dflt else strTrim s
  | none => dflt

/-- Cleaning applied by `InvoiceParser._parse_amount`: remove `¥`, remove
`,`, then strip. -/
def invoiceCleanAmount (s : String) : String :=
  strTrim (removeChar ',' (removeChar '¥' s))

/-- Model of `InvoiceParser._parse_amount`: parse the cleaned string as a
`Decimal`, silently falling back to 0 on any failure. -/
def parseAmountInv (s : String) : ℚ :=
  (pyDecimalParse (invoiceCleanAmount s)).getD 0

/-- Stripping of a trailing full-width colon from an item name. -/
def stripColon (s : String) : String :=
  if lastCharIs '：' s then dropLastChar s else s

/-- Body of the data-row loop (continued): rows that are empty or shorter
than 3 cells are skipped, cells are read with their defaults, a trailing
full-width colon is stripped from the name, amount and quantity fall back
silently (to 0 and 1), empty-named rows are discarded, and the `InvoiceItem`
construction runs the dataclass validation (which can raise, e.g. on a
negative amount). In the source the amount and quantity are computed before
the empty-name check; both computations are pure and never raise, so hoisting
the check preserves behaviour. -/
def processRow (row : List (Option String)) : Except String (Option InvoiceItem) :=
  if row.length < 3 then Except.ok none
  else if stripColon (rowCellStripped row 0 "") = "" then Except.ok none
  else
    match mkInvoiceItem (stripColon (rowCellStripped row 0 ""))
        (parseAmountInv (rowCellStripped row 1 "¥0"))
        ((pyDecimalParse (rowCellStripped row 2 "1")).getD 1)
        (rowCellStripped row 3 "件") with
    | Except.error e => Except.error e
    | Except.ok it => Except.ok (some it)

/-- Index of the first row containing a (truthy) cell in which the literal
"請求項目" occurs. -/
def headerIndex (t : List (List (Option String))) : Option ℕ :=
  t.findIdx?
    (fun row =>
      row.any (fun c =>
        match c with
        | some s => s ≠ "" && strContainsSub s "請求項目"
        | none => false))

/-- Items collected from the data rows following the header row. -/
def rowsItems : List (List (Option String)) → Except String (List InvoiceItem)
  | [] => Except.ok []
  | r :: rest =>
    match processRow r with
    | Except.error e => Except.error e
    | Except.ok o =>
      match rowsItems rest with
      | Except.error e => Except.error e
      | Except.ok tail =>
        Except.ok (match o with | none => tail | some it => it :: tail)

/-- Items contributed by one table: none when it has no header row. -/
def tableItems (t : List (List (Option String))) : Except String (List InvoiceItem) :=
  match headerIndex t with
  | none => Except.ok []
  | some i => rowsItems (t.drop (i + 1))

/-- Items collected across all tables on the page (the loop does not stop at
the first matching table). -/
def tablesItems : List (List (List (Option String))) → Except String (List InvoiceItem)
  | [] => Except.ok []
  | t :: rest =>
    match tableItems t with
    | Except.error e => Except.error e
    | Except.ok a =>
      match tablesItems rest with
      | Except.error e => Except.error e
      | Except.ok b => Except.ok (a ++ b)

/-- Model of `InvoiceParser._extract_invoice_items`: fails when the page has
no tables at all or when no items result; otherwise returns the items. -/
def extractInvoiceItems (tables : List (List (List (Option String)))) :
    Except String (List InvoiceItem) :=
  if tables = [] then Except.error "請求項目テーブルが見つかりませんでした"
  else
    match tablesItems tables with
    | Except.error e => Except.error e
    | Except.ok items =>
      if items = [] then Except.error "請求項目を抽出できませんでした"
      else Except.ok items

/-! ### Claim-side (specification) definitions

These definitions transcribe the specification's wording, to be compared
against the code-derived definitions above. -/

/-- Integer-parsable values of ledger column A, in order (spec wording). -/
def parsableValues (colA : List (Option String)) : List ℤ :=
  colA.filterMap (fun c => c.bind pyIntParse)

/-- Claimed next transaction number: `1 + max(integer-parsable values,
default 0)` — the maximum of the parsable values themselves, with 0 only
when none parse (transcribed from the claim's wording). -/
def claimNextTransactionNo (colA : List (Option String)) : ℤ :=
  1 + (match parsableValues colA with
       | [] => 0
       | x :: xs => xs.foldl max x)

/-- Amended next transaction number: one more than the maximum of 0 and the
integer-parsable values. -/
def amendedNextTransactionNo (colA : List (Option String)) : ℤ :=
  1 + (parsableValues colA).foldl max 0

/-- Spec-shaped import-permit block for integer amounts `a`, `b`, `c`: the
qualifying debit legs in the fixed order with their exact amounts, followed
by exactly one credit leg carrying the exact sum. -/
def importPermitRowsSpec (p : ImportPermit) (txNo : ℤ) (a b c : ℕ) :
    List (List Cell) :=
  (if 0 < a then
    [permitDebitRow p txNo ("租税公課", "", (a : ℚ),
      permitSummaryBase p ++ " 関税", permitMemoBase p ++ " (関税)")]
   else []) ++
  (if 0 < b then
    [permitDebitRow p txNo ("仮払消費税", "共-輸仕-消税 7.8%", (b : ℚ),
      permitSummaryBase p ++ " 消費税", permitMemoBase p ++ " (消費税)")]
   else []) ++
  (if 0 < c then
    [permitDebitRow p txNo ("仮払消費税", "共-輸仕-地税 2.2%", (c : ℚ),
      permitSummaryBase p ++ " 地方消費税", permitMemoBase p ++ " (地方消費税)")]
   else []) ++
  [permitCreditRow p txNo ((a + b + c : ℕ) : ℚ)]

/-- Spec-shaped invoice block for an integer total `t`: the debit/credit pair
with the exact amount when `t > 0`, nothing otherwise. -/
def invoiceRowsSpec (inv : Invoice) (txNo : ℤ) (t : ℕ) : List (List Cell) :=
  if 0 < t then [invoiceDebitRow inv txNo (t : ℚ), invoiceCreditRow inv txNo (t : ℚ)]
  else []

/-- Presence of a well-formed `issue_date` value (spec wording: a string
parsing as `YYYY-MM-DD`). -/
def issueDateOkOf : Option J → Option Date
  | some (J.str s) => if s = "" then none else parseDateYMD s
  | _ => none

/-- Presence of a well-formed `issue_date` in the oracle JSON. -/
def issueDateOk (fields : List (String × J)) : Option Date :=
  issueDateOkOf (jLookup fields "issue_date")

/-! ### Concrete instances used by the testable-property claims -/

/-- The round-trip permit of §8: duty 5000, consumption tax 1500, local
consumption tax 150, all other amounts zero. -/
def demoPermit : ImportPermit :=
  ⟨"YP5507887XX", ⟨2025, 10, 23⟩, "新白岡輸入販売株式会社", "YP5507887XX",
   0, 5000, 1500, 150, 0, [], true⟩

/-- Permit whose three duty/tax amounts are all zero. -/
def zeroPermit : ImportPermit :=
  ⟨"YP0000000XX", ⟨2025, 10, 23⟩, "", "YP0000000XX", 0, 0, 0, 0, 0, [], true⟩

/-- Permit with the fractional duty `Decimal('0.1')`. -/
def tenthPermit : ImportPermit :=
  ⟨"YP0000000XY", ⟨2025, 1, 2⟩, "", "YP0000000XY", 0, 1/10, 0, 0, 0, [], true⟩

/-- Permit with duty `2^53` and consumption tax 1, where the float sum of the
debit legs differs from their exact sum. -/
def hugePermit : ImportPermit :=
  ⟨"YP0000000XZ", ⟨2025, 1, 2⟩, "", "YP0000000XZ",
   0, (9007199254740992 : ℚ), 1, 0, 0, [], true⟩

/-- Invoice with total 3000 (the §8 example amount). -/
def demoInvoice : Invoice :=
  ⟨"YP5507628XX", ⟨2025, 10, 23⟩, "新白岡輸入販売株式会社 和田篤様", "YP5507628XX",
   3000, 0, 3000, ⟨2025, 10, 25⟩, [], true⟩

/-- Invoice with the fractional total `Decimal('0.1')`. -/
def tenthInvoice : Invoice :=
  ⟨"YP0000001XX", ⟨2025, 1, 2⟩, "", "YP0000001XX",
   1/10, 0, 0, ⟨2025, 1, 3⟩, [], true⟩

/-- Invoice whose total amount is zero. -/
def zeroTotalInvoice : Invoice :=
  ⟨"YP0000004XX", ⟨2025, 1, 2⟩, "", "YP0000004XX",
   0, 0, 0, ⟨2025, 1, 3⟩, [], true⟩

/-- Invoice with negative `tax_amount` and `subtotal` but valid other fields. -/
def negTaxInvoice : Invoice :=
  ⟨"YP0000002XX", ⟨2025, 1, 2⟩, "", "YP0000002XX",
   100, -50, -20, ⟨2025, 1, 3⟩, [], true⟩

/-- Import permit with negative `subtotal` but valid other fields. -/
def negSubPermit : ImportPermit :=
  ⟨"YP0000003XX", ⟨2025, 1, 2⟩, "", "YP0000003XX", 0, 0, 0, 0, -5, [], true⟩

/-! ### Theorems -/

theorem roundHalfEven_intCast (z : ℤ) : roundHalfEven (z : ℚ) = z := by
  unfold roundHalfEven
  norm_num

theorem le_roundHalfEven (q : ℚ) : ⌊q⌋ ≤ roundHalfEven q := by
  unfold roundHalfEven
  split_ifs <;> omega

theorem pyFloatMag_natCast (n : ℕ) (hn : 0 < n) (h : n < 2 ^ 53) :
    pyFloatMag (n : ℚ) = n := by
  have hpos : (0:ℚ) < n := by exact_mod_cast hn
  have hlt : (n : ℚ) < ((2:ℕ) : ℚ) ^ (53 : ℤ) := by
    push_cast
    norm_num
    exact_mod_cast h
  have hlog : Int.log 2 (n : ℚ) < 53 :=
    (Int.lt_zpow_iff_log_lt one_lt_two hpos).mp hlt
  set e : ℤ := Int.log 2 (n : ℚ) with he
  have hk : ((52 - e).toNat : ℤ) = 52 - e := Int.toNat_of_nonneg (by omega)
  set k : ℕ := (52 - e).toNat with hkdef
  have h2k : (2:ℚ) ^ ((52:ℤ) - e) = (2:ℚ) ^ k := by
    rw [← hk, zpow_natCast]
  have h2k' : (2:ℚ) ^ (e - (52:ℤ)) = ((2:ℚ) ^ k)⁻¹ := by
    have : e - (52:ℤ) = -((52:ℤ) - e) := by ring
    rw [this, zpow_neg, ← hk, zpow_natCast]
  have hprod : (n : ℚ) * (2:ℚ) ^ ((52:ℤ) - e) = ((n * 2 ^ k : ℕ) : ℚ) := by
    rw [h2k]
    push_cast
    ring
  unfold pyFloatMag
  rw [← he, hprod]
  have : ((n * 2 ^ k : ℕ) : ℚ) = (((n * 2 ^ k : ℕ) : ℤ) : ℚ) := by push_cast; ring
  rw [this, roundHalfEven_intCast, h2k']
  push_cast
  have h2kne : ((2:ℚ) ^ k) ≠ 0 := by positivity
  field_simp

theorem pyFloat_natCast (n : ℕ) (h : n < 2 ^ 53) : pyFloat (n : ℚ) = n := by
  rcases Nat.eq_zero_or_pos n with rfl | hn
  · simp [pyFloat]
  · have hpos : (0:ℚ) < n := by exact_mod_cast hn
    unfold pyFloat
    rw [if_neg (by positivity), if_neg (by linarith)]
    exact pyFloatMag_natCast n hn h

theorem pyFloatMag_nonneg (a : ℚ) (ha : 0 ≤ a) : 0 ≤ pyFloatMag a := by
  unfold pyFloatMag
  have hx : (0:ℚ) ≤ a * (2:ℚ) ^ ((52:ℤ) - Int.log 2 a) := by positivity
  have hfloor : (0:ℤ) ≤ ⌊a * (2:ℚ) ^ ((52:ℤ) - Int.log 2 a)⌋ := Int.floor_nonneg.mpr hx
  have hm : (0:ℤ) ≤ roundHalfEven (a * (2:ℚ) ^ ((52:ℤ) - Int.log 2 a)) :=
    le_trans hfloor (le_roundHalfEven _)
  have : (0:ℚ) ≤ (roundHalfEven (a * (2:ℚ) ^ ((52:ℤ) - Int.log 2 a)) : ℚ) := by
    exact_mod_cast hm
  positivity

theorem pyFloat_nonpos (q : ℚ) (h : q ≤ 0) : pyFloat q ≤ 0 := by
  unfold pyFloat
  rcases eq_or_lt_of_le h with rfl | hlt
  · simp
  · rw [if_neg (ne_of_lt hlt), if_pos hlt]
    have := pyFloatMag_nonneg (-q) (by linarith)
    linarith

theorem floatSum_natCast_aux (l : List ℕ) :
    ∀ acc : ℕ, acc + l.sum < 2 ^ 53 →
      (l.map (fun n : ℕ => (n : ℚ))).foldl (fun a x => pyFloat (a + x)) (acc : ℚ) =
        ((acc + l.sum : ℕ) : ℚ) := by
  induction l with
  | nil => intro acc _; simp [List.foldl_nil]
  | cons n t ih =>
    intro acc h
    have hsum : (n :: t).sum = n + t.sum := by simp
    rw [List.map_cons, List.foldl_cons]
    have hcast : (acc : ℚ) + (n : ℚ) = ((acc + n : ℕ) : ℚ) := by push_cast; ring
    rw [hcast, pyFloat_natCast (acc + n) (by rw [hsum] at h; omega)]
    rw [ih (acc + n) (by rw [hsum] at h; omega)]
    congr 1
    rw [hsum]
    omega

theorem floatSum_natCast (l : List ℕ) (h : l.sum < 2 ^ 53) :
    floatSum (l.map (fun n : ℕ => (n : ℚ))) = (l.sum : ℚ) := by
  unfold floatSum
  have := floatSum_natCast_aux l 0 (by omega)
  simpa using this

theorem if_lt_eq_max (a v : ℤ) : (if a < v then v else a) = max a v := by
  rcases le_or_lt v a with h | h
  · rw [if_neg (not_lt.mpr h), max_eq_left h]
  · rw [if_pos h, max_eq_right h.le]

theorem nextNo_fold_eq (l : List (Option String)) :
    ∀ acc : ℤ,
      l.foldl
        (fun acc cell =>
          match cell with
          | none => acc
          | some s =>
            match pyIntParse s with
            | none => acc
            | some v => if acc < v then v else acc)
        acc =
      (l.filterMap (fun c => c.bind pyIntParse)).foldl max acc := by
  induction l with
  | nil => intro acc; rfl
  | cons c t ih =>
    intro acc
    cases c with
    | none => simpa using ih acc
    | some s =>
      have hb : (fun c : Option String => c.bind pyIntParse) (some s) = pyIntParse s := rfl
      cases h : pyIntParse s with
      | none =>
        simp only [List.foldl_cons, h]
        rw [@List.filterMap_cons_none (Option String) ℤ
          (fun c => c.bind pyIntParse) (some s) t (hb.trans h)]
        exact ih acc
      | some v =>
        simp only [List.foldl_cons, h]
        rw [@List.filterMap_cons_some (Option String) ℤ
          (fun c => c.bind pyIntParse) (some s) t v (hb.trans h),
          List.foldl_cons, if_lt_eq_max]
        exact ih (max acc v)

/-- C2 (amended): for every ledger column-A content, the next transaction
number computed by the code equals one plus the maximum of 0 and the
integer-parsable values (non-integer and empty cells skipped without error);
in particular the column `["3", "7", "abc", "", "2"]` yields 8. -/
theorem next_transaction_no_amended :
    (∀ colA : List (Option String),
      nextTransactionNo colA = amendedNextTransactionNo colA) ∧
    nextTransactionNo [some "3", some "7", some "abc", some "", some "2"] = 8 := by
  constructor
  · intro colA
    unfold nextTransactionNo amendedNextTransactionNo parsableValues
    rw [nextNo_fold_eq]
    omega
  · decide

/-- C2 counterexample: on the column `["-5"]` the code computes 1, while the
claim's formula `1 + max(integer-parsable values, default 0)` gives `-4`. -/
theorem next_transaction_no_counterexample :
    nextTransactionNo [some "-5"] = 1 ∧
    claimNextTransactionNo [some "-5"] = -4 ∧
    nextTransactionNo [some "-5"] ≠ claimNextTransactionNo [some "-5"] := by
  decide

/-- C9: a permit whose customs duty, consumption tax and local consumption
tax are all zero produces zero journal rows, and the write returns normally
signalling that nothing was written (`none`), rather than raising. -/
theorem zero_permit_no_rows :
    ∀ (p : ImportPermit) (colA : List (Option String)),
      p.customs_duty = 0 → p.consumption_tax = 0 → p.local_consumption_tax = 0 →
      buildImportPermitRows p (nextTransactionNo colA) = [] ∧
      writeImportPermitOutcome p colA = none := by
  intro p colA h1 h2 h3
  have hrows : ∀ n : ℤ, buildImportPermitRows p n = [] := by
    intro n
    unfold buildImportPermitRows importPermitDebitEntries
    rw [h1, h2, h3]
    simp [floatSum]
  refine ⟨hrows _, ?_⟩
  unfold writeImportPermitOutcome
  rw [hrows]
  simp

/-- C9 witness: the all-zero permit instance. -/
theorem zero_permit_no_rows_witness :
    buildImportPermitRows zeroPermit (nextTransactionNo []) = [] ∧
    writeImportPermitOutcome zeroPermit [] = none :=
  zero_permit_no_rows zeroPermit [] rfl rfl rfl

theorem permit_row_date (p : ImportPermit) (txNo : ℤ) (r : List Cell)
    (hr : r ∈ buildImportPermitRows p txNo) :
    r.getD 1 (Cell.s "") = Cell.s (formatDate p.issue_date) := by
  unfold buildImportPermitRows at hr
  rcases List.mem_append.mp hr with h | h
  · obtain ⟨e, _, rfl⟩ := List.mem_map.mp h
    obtain ⟨acct, taxcat, amt, summary, memo⟩ := e
    rfl
  · split at h
    · rcases List.mem_singleton.mp h with rfl
      rfl
    · exact absurd h (List.not_mem_nil r)

theorem permit_row_tx (p : ImportPermit) (txNo : ℤ) (r : List Cell)
    (hr : r ∈ buildImportPermitRows p txNo) :
    r.getD 0 (Cell.s "") = Cell.i txNo := by
  unfold buildImportPermitRows at hr
  rcases List.mem_append.mp hr with h | h
  · obtain ⟨e, _, rfl⟩ := List.mem_map.mp h
    obtain ⟨acct, taxcat, amt, summary, memo⟩ := e
    rfl
  · split at h
    · rcases List.mem_singleton.mp h with rfl
      rfl
    · exact absurd h (List.not_mem_nil r)

theorem invoice_row_date (inv : Invoice) (txNo : ℤ) (r : List Cell)
    (hr : r ∈ buildInvoiceRows inv txNo) :
    r.getD 1 (Cell.s "") = Cell.s (formatDate inv.issue_date) := by
  unfold buildInvoiceRows at hr
  split at hr
  · rcases List.mem_cons.mp hr with rfl | hr
    · rfl
    · rcases List.mem_singleton.mp hr with rfl
      rfl
  · exact absurd hr (List.not_mem_nil r)

theorem invoice_row_tx (inv : Invoice) (txNo : ℤ) (r : List Cell)
    (hr : r ∈ buildInvoiceRows inv txNo) :
    r.getD 0 (Cell.s "") = Cell.i txNo := by
  unfold buildInvoiceRows at hr
  split at hr
  · rcases List.mem_cons.mp hr with rfl | hr
    · rfl
    · rcases List.mem_singleton.mp hr with rfl
      rfl
  · exact absurd hr (List.not_mem_nil r)

/-- C10: every journal row emitted for an import permit or an invoice carries
as transaction date the document's issue date formatted `YYYY/MM/DD`; the
payment due date is never used. -/
theorem transaction_date_from_issue_date :
    (∀ (p : ImportPermit) (txNo : ℤ), ∀ r ∈ buildImportPermitRows p txNo,
      r.getD 1 (Cell.s "") = Cell.s (formatDate p.issue_date)) ∧
    (∀ (inv : Invoice) (txNo : ℤ), ∀ r ∈ buildInvoiceRows inv txNo,
      r.getD 1 (Cell.s "") = Cell.s (formatDate inv.issue_date)) :=
  ⟨fun p txNo r hr => permit_row_date p txNo r hr,
   fun inv txNo r hr => invoice_row_date inv txNo r hr⟩

/-- C10 witness: the customs-duty debit row of the concrete permit block and
the debit row of the concrete invoice block. -/
theorem transaction_date_from_issue_date_witness :
    (permitDebitRow demoPermit 1 ("租税公課", "", pyFloat demoPermit.customs_duty,
        permitSummaryBase demoPermit ++ " 関税",
        permitMemoBase demoPermit ++ " (関税)")).getD 1 (Cell.s "") =
      Cell.s (formatDate demoPermit.issue_date) ∧
    (invoiceDebitRow demoInvoice 1 (pyFloat demoInvoice.total_amount)).getD 1 (Cell.s "") =
      Cell.s (formatDate demoInvoice.issue_date) := by
  constructor
  · apply transaction_date_from_issue_date.1 demoPermit 1
    unfold buildImportPermitRows
    apply List.mem_append_left
    apply List.mem_map_of_mem
    unfold importPermitDebitEntries
    rw [if_pos (by norm_num [demoPermit] : (0:ℚ) < demoPermit.customs_duty)]
    exact List.mem_append_left _ (List.mem_append_left _ (List.mem_singleton_self _))
  · apply transaction_date_from_issue_date.2 demoInvoice 1
    unfold buildInvoiceRows
    have h3 : pyFloat demoInvoice.total_amount = ((3000:ℕ):ℚ) := by
      have : demoInvoice.total_amount = ((3000:ℕ):ℚ) := by norm_num [demoInvoice]
      rw [this]
      exact pyFloat_natCast 3000 (by norm_num)
    rw [if_pos (by rw [h3]; norm_num)]
    exact List.mem_cons_self _ _

theorem intLog2_eq (q : ℚ) (e : ℤ) (hq : 0 < q) (h1 : (2:ℚ) ^ e ≤ q)
    (h2 : q < (2:ℚ) ^ (e + 1)) : Int.log 2 q = e := by
  have hb : (1:ℕ) < 2 := one_lt_two
  have hle : e ≤ Int.log 2 q := by
    apply (Int.zpow_le_iff_le_log hb hq).mp
    push_cast
    exact h1
  have hlt : Int.log 2 q < e + 1 := by
    apply (Int.lt_zpow_iff_log_lt hb hq).mp
    push_cast
    exact h2
  omega

theorem roundHalfEven_eq_up (q : ℚ) (n : ℤ) (h1 : (n:ℚ) ≤ q) (h2 : q < n + 1)
    (hmid : 1/2 < q - n) : roundHalfEven q = n + 1 := by
  have hf : ⌊q⌋ = n := Int.floor_eq_iff.mpr ⟨h1, h2⟩
  unfold roundHalfEven
  rw [hf, if_neg (by linarith), if_pos hmid]

theorem roundHalfEven_eq_tie (q : ℚ) (n : ℤ) (h1 : (n:ℚ) ≤ q) (h2 : q < n + 1)
    (hmid : q - n = 1/2) (heven : n % 2 = 0) : roundHalfEven q = n := by
  have hf : ⌊q⌋ = n := Int.floor_eq_iff.mpr ⟨h1, h2⟩
  unfold roundHalfEven
  rw [hf, if_neg (by rw [hmid]; exact lt_irrefl _),
    if_neg (by rw [hmid]; exact lt_irrefl _), if_pos heven]

theorem pyFloat_tenth :
    pyFloat (1/10 : ℚ) = 3602879701896397 / 36028797018963968 := by
  have hlog : Int.log 2 ((1/10 : ℚ)) = -4 :=
    intLog2_eq (1/10) (-4) (by norm_num) (by norm_num) (by norm_num)
  unfold pyFloat
  rw [if_neg (by norm_num), if_neg (by norm_num)]
  unfold pyFloatMag
  rw [hlog]
  have hx : (1/10 : ℚ) * (2:ℚ) ^ ((52:ℤ) - (-4)) = 36028797018963968/5 := by
    norm_num
  rw [hx]
  have hr : roundHalfEven (36028797018963968/5 : ℚ) = 7205759403792793 + 1 :=
    roundHalfEven_eq_up _ 7205759403792793 (by norm_num) (by norm_num) (by norm_num)
  rw [hr]
  push_cast
  norm_num

theorem pyFloat_two53 :
    pyFloat ((9007199254740992 : ℚ)) = 9007199254740992 := by
  have hlog : Int.log 2 ((9007199254740992 : ℚ)) = 53 :=
    intLog2_eq _ 53 (by norm_num) (by norm_num) (by norm_num)
  unfold pyFloat
  rw [if_neg (by norm_num), if_neg (by norm_num)]
  unfold pyFloatMag
  rw [hlog]
  have hx : (9007199254740992 : ℚ) * (2:ℚ) ^ ((52:ℤ) - 53) =
      ((4503599627370496 : ℤ) : ℚ) := by
    push_cast
    norm_num
  rw [hx, roundHalfEven_intCast]
  push_cast
  norm_num

theorem pyFloat_two53succ :
    pyFloat ((9007199254740993 : ℚ)) = 9007199254740992 := by
  have hlog : Int.log 2 ((9007199254740993 : ℚ)) = 53 :=
    intLog2_eq _ 53 (by norm_num) (by norm_num) (by norm_num)
  unfold pyFloat
  rw [if_neg (by norm_num), if_neg (by norm_num)]
  unfold pyFloatMag
  rw [hlog]
  have hx : (9007199254740993 : ℚ) * (2:ℚ) ^ ((52:ℤ) - 53) =
      9007199254740993/2 := by
    norm_num
  rw [hx]
  have hr : roundHalfEven (9007199254740993/2 : ℚ) = 4503599627370496 :=
    roundHalfEven_eq_tie _ 4503599627370496 (by norm_num) (by norm_num)
      (by norm_num) (by norm_num)
  rw [hr]
  push_cast
  norm_num

theorem floatSum_pair (x y : ℚ) :
    floatSum [x, y] = pyFloat (pyFloat (0 + x) + y) := rfl

theorem floatSum_one (a : ℕ) (h : a < 2 ^ 53) : floatSum [(a:ℚ)] = (a:ℚ) := by
  unfold floatSum
  simp only [List.foldl_cons, List.foldl_nil, zero_add]
  exact pyFloat_natCast a h

theorem floatSum_two (a b : ℕ) (h : a + b < 2 ^ 53) :
    floatSum [(a:ℚ), (b:ℚ)] = ((a + b : ℕ) : ℚ) := by
  unfold floatSum
  simp only [List.foldl_cons, List.foldl_nil, zero_add]
  rw [pyFloat_natCast a (by omega),
    show (a:ℚ) + (b:ℚ) = ((a + b : ℕ) : ℚ) by push_cast; ring,
    pyFloat_natCast (a + b) h]

theorem floatSum_three (a b c : ℕ) (h : a + b + c < 2 ^ 53) :
    floatSum [(a:ℚ), (b:ℚ), (c:ℚ)] = ((a + b + c : ℕ) : ℚ) := by
  unfold floatSum
  simp only [List.foldl_cons, List.foldl_nil, zero_add]
  rw [pyFloat_natCast a (by omega),
    show (a:ℚ) + (b:ℚ) = ((a + b : ℕ) : ℚ) by push_cast; ring,
    pyFloat_natCast (a + b) (by omega),
    show ((a + b : ℕ):ℚ) + (c:ℚ) = ((a + b + c : ℕ) : ℚ) by push_cast; ring,
    pyFloat_natCast (a + b + c) h]

theorem permitBlockNatCore (p : ImportPermit) (txNo : ℤ) (a b c : ℕ)
    (ha : p.customs_duty = (a : ℚ)) (hb : p.consumption_tax = (b : ℚ))
    (hc : p.local_consumption_tax = (c : ℚ)) (hlt : a + b + c < 2 ^ 53)
    (hpos : 0 < a + b + c) :
    buildImportPermitRows p txNo = importPermitRowsSpec p txNo a b c := by
  have pfa : pyFloat ((a:ℚ)) = (a:ℚ) := pyFloat_natCast a (by omega)
  have pfb : pyFloat ((b:ℚ)) = (b:ℚ) := pyFloat_natCast b (by omega)
  have pfc : pyFloat ((c:ℚ)) = (c:ℚ) := pyFloat_natCast c (by omega)
  unfold buildImportPermitRows importPermitDebitEntries importPermitRowsSpec
  rw [ha, hb, hc, pfa, pfb, pfc]
  simp only [Nat.cast_pos]
  by_cases h1 : 0 < a <;> by_cases h2 : 0 < b <;> by_cases h3 : 0 < c
  · simp only [if_pos h1, if_pos h2, if_pos h3, List.cons_append, List.nil_append,
      List.map_cons, List.map_nil, List.map_append]
    rw [floatSum_three a b c hlt, if_pos (by exact_mod_cast hpos)]
  · have hc0 : c = 0 := by omega
    subst hc0
    simp only [if_pos h1, if_pos h2, if_neg h3, List.append_nil, List.cons_append,
      List.nil_append, List.map_cons, List.map_nil, List.map_append]
    rw [floatSum_two a b (by omega), if_pos (by exact_mod_cast (by omega : 0 < a + b))]
    simp only [Nat.add_zero]
  · have hb0 : b = 0 := by omega
    subst hb0
    simp only [if_pos h1, if_neg h2, if_pos h3, List.append_nil, List.cons_append,
      List.nil_append, List.map_cons, List.map_nil, List.map_append]
    rw [floatSum_two a c (by omega), if_pos (by exact_mod_cast (by omega : 0 < a + c))]
    simp only [Nat.add_zero]
  · have hb0 : b = 0 := by omega
    have hc0 : c = 0 := by omega
    subst hb0
    subst hc0
    simp only [if_pos h1, if_neg h2, if_neg h3, List.append_nil, List.cons_append,
      List.nil_append, List.map_cons, List.map_nil, List.map_append]
    rw [floatSum_one a (by omega), if_pos (by exact_mod_cast (by omega : 0 < a))]
    simp only [Nat.add_zero]
  · have ha0 : a = 0 := by omega
    subst ha0
    simp only [if_neg h1, if_pos h2, if_pos h3, List.append_nil, List.cons_append,
      List.nil_append, List.map_cons, List.map_nil, List.map_append]
    rw [floatSum_two b c (by omega), if_pos (by exact_mod_cast (by omega : 0 < b + c))]
    simp only [Nat.zero_add]
  · have ha0 : a = 0 := by omega
    have hc0 : c = 0 := by omega
    subst ha0
    subst hc0
    simp only [if_neg h1, if_pos h2, if_neg h3, List.append_nil, List.cons_append,
      List.nil_append, List.map_cons, List.map_nil, List.map_append]
    rw [floatSum_one b (by omega), if_pos (by exact_mod_cast (by omega : 0 < b))]
    simp only [Nat.zero_add, Nat.add_zero]
  · have ha0 : a = 0 := by omega
    have hb0 : b = 0 := by omega
    subst ha0
    subst hb0
    simp only [if_neg h1, if_neg h2, if_pos h3, List.append_nil, List.cons_append,
      List.nil_append, List.map_cons, List.map_nil, List.map_append]
    rw [floatSum_one c (by omega), if_pos (by exact_mod_cast (by omega : 0 < c))]
    simp only [Nat.zero_add]
  · exact absurd hpos (by omega)

/-- C1 (amended): for every import permit whose three duty/tax amounts are
integer yen values with sum below 2^53 and not all zero, the journal block is
exactly the debit legs in the fixed order customs duty, consumption tax,
local consumption tax (each emitted exactly when its amount is positive, with
its exact amount) followed by one credit leg whose amount equals the sum of
the emitted debit amounts, every row carrying the same transaction number;
for the 5000/1500/150 permit this gives exactly 4 rows, debit amounts
5000, 1500, 150 and credit amount 6650 = 5000+1500+150. -/
theorem import_permit_block_structure :
    (∀ (p : ImportPermit) (txNo : ℤ) (a b c : ℕ),
      p.customs_duty = (a : ℚ) → p.consumption_tax = (b : ℚ) →
      p.local_consumption_tax = (c : ℚ) → a + b + c < 2 ^ 53 → 0 < a + b + c →
      buildImportPermitRows p txNo = importPermitRowsSpec p txNo a b c ∧
      (∀ r ∈ buildImportPermitRows p txNo, r.getD 0 (Cell.s "") = Cell.i txNo)) ∧
    (buildImportPermitRows demoPermit 1 = importPermitRowsSpec demoPermit 1 5000 1500 150 ∧
     (buildImportPermitRows demoPermit 1).length = 4 ∧
     ((buildImportPermitRows demoPermit 1).getD 0 []).getD 8 (Cell.s "") = Cell.f 5000 ∧
     ((buildImportPermitRows demoPermit 1).getD 1 []).getD 8 (Cell.s "") = Cell.f 1500 ∧
     ((buildImportPermitRows demoPermit 1).getD 2 []).getD 8 (Cell.s "") = Cell.f 150 ∧
     ((buildImportPermitRows demoPermit 1).getD 3 []).getD 16 (Cell.s "") = Cell.f 6650 ∧
     (5000 : ℚ) + 1500 + 150 = 6650 ∧
     (∀ r ∈ buildImportPermitRows demoPermit 1, r.getD 0 (Cell.s "") = Cell.i 1)) := by
  have hdemo : buildImportPermitRows demoPermit 1 =
      importPermitRowsSpec demoPermit 1 5000 1500 150 :=
    permitBlockNatCore demoPermit 1 5000 1500 150 (by norm_num [demoPermit])
      (by norm_num [demoPermit]) (by norm_num [demoPermit]) (by norm_num) (by norm_num)
  constructor
  · intro p txNo a b c ha hb hc hlt hpos
    exact ⟨permitBlockNatCore p txNo a b c ha hb hc hlt hpos,
      fun r hr => permit_row_tx p txNo r hr⟩
  · rw [hdemo]
    refine ⟨rfl, by decide, by decide, by decide, by decide, by decide,
      by norm_num, by decide⟩

/-- C1 witness: the amended statement instantiated at the 5000/1500/150
permit with transaction number 7. -/
theorem import_permit_block_structure_witness :
    buildImportPermitRows demoPermit 7 = importPermitRowsSpec demoPermit 7 5000 1500 150 ∧
    (∀ r ∈ buildImportPermitRows demoPermit 7, r.getD 0 (Cell.s "") = Cell.i 7) :=
  import_permit_block_structure.1 demoPermit 7 5000 1500 150
    (by norm_num [demoPermit]) (by norm_num [demoPermit]) (by norm_num [demoPermit])
    (by norm_num) (by norm_num)

/-- C1 counterexample: for the permit with customs duty 2^53 and consumption
tax 1, the two emitted debit amounts are 2^53 and 1, but the credit row holds
the float sum 2^53, which differs from the exact sum 2^53 + 1 — so the
credit amount does not equal the sum of the emitted debit amounts. -/
theorem import_permit_credit_sum_counterexample :
    hugePermit.customs_duty = 9007199254740992 ∧
    hugePermit.consumption_tax = 1 ∧
    ((buildImportPermitRows hugePermit 1).getD 0 []).getD 8 (Cell.s "") =
      Cell.f (9007199254740992 : ℚ) ∧
    ((buildImportPermitRows hugePermit 1).getD 1 []).getD 8 (Cell.s "") =
      Cell.f (1 : ℚ) ∧
    ((buildImportPermitRows hugePermit 1).getD 2 []).getD 16 (Cell.s "") =
      Cell.f (9007199254740992 : ℚ) ∧
    (9007199254740992 : ℚ) ≠ 9007199254740992 + 1 := by
  have hd : hugePermit.customs_duty = (9007199254740992:ℚ) := rfl
  have hc : hugePermit.consumption_tax = 1 := rfl
  have hl : hugePermit.local_consumption_tax = 0 := rfl
  have hone : pyFloat (1:ℚ) = 1 := by
    have h := pyFloat_natCast 1 (by norm_num)
    simpa using h
  have hfs : floatSum [(9007199254740992:ℚ), 1] = 9007199254740992 := by
    rw [floatSum_pair, zero_add, pyFloat_two53,
      show (9007199254740992:ℚ) + 1 = 9007199254740993 by norm_num,
      pyFloat_two53succ]
  have hrows : buildImportPermitRows hugePermit 1 =
      [permitDebitRow hugePermit 1 ("租税公課", "", (9007199254740992:ℚ),
         permitSummaryBase hugePermit ++ " 関税", permitMemoBase hugePermit ++ " (関税)"),
       permitDebitRow hugePermit 1 ("仮払消費税", "共-輸仕-消税 7.8%", (1:ℚ),
         permitSummaryBase hugePermit ++ " 消費税", permitMemoBase hugePermit ++ " (消費税)"),
       permitCreditRow hugePermit 1 (9007199254740992:ℚ)] := by
    unfold buildImportPermitRows importPermitDebitEntries
    rw [hd, hc, hl]
    rw [if_pos (by norm_num), if_pos (by norm_num), if_neg (lt_irrefl 0)]
    rw [pyFloat_two53, hone]
    simp only [List.append_nil, List.cons_append, List.nil_append,
      List.map_cons, List.map_nil, List.map_append]
    rw [hfs, if_pos (by norm_num)]
  refine ⟨rfl, rfl, ?_, ?_, ?_, by norm_num⟩ <;> rw [hrows] <;> rfl

/-- C3 (code bug): the journal row builder passes the exact decimal amounts
through binary floating point (`float(...)`); for the permit whose customs
duty is the exact decimal 1/10, the emitted debit amount is the binary64
value 3602879701896397/2^55, which differs from 1/10. -/
theorem float_conversion_code_bug :
    tenthPermit.customs_duty = 1/10 ∧
    ((buildImportPermitRows tenthPermit 1).getD 0 []).getD 8 (Cell.s "") =
      Cell.f (3602879701896397 / 36028797018963968) ∧
    (3602879701896397 / 36028797018963968 : ℚ) ≠ 1/10 := by
  refine ⟨rfl, ?_, by norm_num⟩
  have hd : tenthPermit.customs_duty = 1/10 := rfl
  have hc : tenthPermit.consumption_tax = 0 := rfl
  have hl : tenthPermit.local_consumption_tax = 0 := rfl
  unfold buildImportPermitRows importPermitDebitEntries
  rw [hd, hc, hl]
  rw [if_pos (by norm_num), if_neg (lt_irrefl 0), if_neg (lt_irrefl 0)]
  rw [pyFloat_tenth]
  simp only [List.append_nil, List.cons_append, List.nil_append,
    List.map_cons, List.map_nil, List.map_append]
  rfl

/-- C8 (amended): for every invoice whose total amount is an integer yen
value below 2^53, the block is exactly the debit leg (支払手数料) and the
credit leg (普通預金/海源), both carrying the exact total and sharing one
transaction number, emitted exactly when the total is positive; and for every
invoice whose total amount is ≤ 0 no rows are emitted. -/
theorem invoice_block_structure :
    (∀ (inv : Invoice) (txNo : ℤ) (t : ℕ),
      inv.total_amount = (t : ℚ) → t < 2 ^ 53 →
      buildInvoiceRows inv txNo = invoiceRowsSpec inv txNo t ∧
      (∀ r ∈ buildInvoiceRows inv txNo, r.getD 0 (Cell.s "") = Cell.i txNo)) ∧
    (∀ (inv : Invoice) (txNo : ℤ), inv.total_amount ≤ 0 →
      buildInvoiceRows inv txNo = []) := by
  constructor
  · intro inv txNo t ht hlt
    have hpf : pyFloat inv.total_amount = ((t:ℕ):ℚ) := by
      rw [ht]
      exact pyFloat_natCast t hlt
    refine ⟨?_, fun r hr => invoice_row_tx inv txNo r hr⟩
    unfold buildInvoiceRows invoiceRowsSpec
    rw [hpf]
    by_cases h : 0 < t
    · rw [if_pos (by exact_mod_cast h), if_pos h]
    · rw [if_neg (by exact_mod_cast h), if_neg h]
  · intro inv txNo h
    unfold buildInvoiceRows
    rw [if_neg (not_lt.mpr (pyFloat_nonpos inv.total_amount h))]

/-- C8 witness: the 3000-yen invoice with transaction number 5 and the
zero-total invoice. -/
theorem invoice_block_structure_witness :
    (buildInvoiceRows demoInvoice 5 = invoiceRowsSpec demoInvoice 5 3000 ∧
     (∀ r ∈ buildInvoiceRows demoInvoice 5, r.getD 0 (Cell.s "") = Cell.i 5)) ∧
    buildInvoiceRows zeroTotalInvoice 1 = [] :=
  ⟨invoice_block_structure.1 demoInvoice 5 3000 (by norm_num [demoInvoice]) (by norm_num),
   invoice_block_structure.2 zeroTotalInvoice 1 (by norm_num [zeroTotalInvoice])⟩

/-- C8 counterexample: for the invoice whose total amount is the exact
decimal 1/10, rows are emitted but the debit amount is the binary64 value of
0.1, not the exact decimal 1/10 as the claim states. -/
theorem invoice_float_amount_counterexample :
    tenthInvoice.total_amount = 1/10 ∧
    ((buildInvoiceRows tenthInvoice 1).getD 0 []).getD 8 (Cell.s "") =
      Cell.f (3602879701896397 / 36028797018963968) ∧
    (3602879701896397 / 36028797018963968 : ℚ) ≠ 1/10 := by
  refine ⟨rfl, ?_, by norm_num⟩
  have ht : tenthInvoice.total_amount = 1/10 := rfl
  unfold buildInvoiceRows
  rw [ht, pyFloat_tenth, if_pos (by norm_num)]
  rfl

/-- C4 (amended): construction raises for a negative `Invoice.total_amount`
and, independently, for each negative `ImportPermit` field among
`total_amount`, `customs_duty`, `consumption_tax` and
`local_consumption_tax`; but a negative `Invoice.tax_amount`,
`Invoice.subtotal` or `ImportPermit.subtotal` is accepted — those fields are
not checked. -/
theorem negative_field_validation :
    (∀ inv : Invoice, inv.total_amount < 0 → isErr (invoiceValidate inv) = true) ∧
    (∀ p : ImportPermit, p.total_amount < 0 → isErr (importPermitValidate p) = true) ∧
    (∀ p : ImportPermit, p.customs_duty < 0 → isErr (importPermitValidate p) = true) ∧
    (∀ p : ImportPermit, p.consumption_tax < 0 → isErr (importPermitValidate p) = true) ∧
    (∀ p : ImportPermit, p.local_consumption_tax < 0 →
      isErr (importPermitValidate p) = true) ∧
    (negTaxInvoice.tax_amount < 0 ∧ negTaxInvoice.subtotal < 0 ∧
      invoiceValidate negTaxInvoice = Except.ok ()) ∧
    (negSubPermit.subtotal < 0 ∧ importPermitValidate negSubPermit = Except.ok ()) := by
  refine ⟨?_, ?_, ?_, ?_, ?_, by decide, by decide⟩
  · intro inv h
    unfold invoiceValidate
    split_ifs <;> simp_all [isErr]
  · intro p h
    unfold importPermitValidate
    split_ifs <;> simp_all [isErr]
  · intro p h
    unfold importPermitValidate
    split_ifs <;> simp_all [isErr]
  · intro p h
    unfold importPermitValidate
    split_ifs <;> simp_all [isErr]
  · intro p h
    unfold importPermitValidate
    split_ifs <;> simp_all [isErr]

/-- C4 witness: one entity per independently checked field. -/
theorem negative_field_validation_witness :
    isErr (invoiceValidate ⟨"W1", ⟨2025, 1, 1⟩, "", "", -1, 0, 0,
      ⟨2025, 1, 2⟩, [], true⟩) = true ∧
    isErr (importPermitValidate ⟨"W2", ⟨2025, 1, 1⟩, "", "", -1, 0, 0, 0, 0,
      [], true⟩) = true ∧
    isErr (importPermitValidate ⟨"W3", ⟨2025, 1, 1⟩, "", "", 0, -1, 0, 0, 0,
      [], true⟩) = true ∧
    isErr (importPermitValidate ⟨"W4", ⟨2025, 1, 1⟩, "", "", 0, 0, -1, 0, 0,
      [], true⟩) = true ∧
    isErr (importPermitValidate ⟨"W5", ⟨2025, 1, 1⟩, "", "", 0, 0, 0, -1, 0,
      [], true⟩) = true :=
  ⟨negative_field_validation.1 _ (by decide),
   negative_field_validation.2.1 _ (by decide),
   negative_field_validation.2.2.1 _ (by decide),
   negative_field_validation.2.2.2.1 _ (by decide),
   negative_field_validation.2.2.2.2.1 _ (by decide)⟩

/-- C4 counterexample: the invoice with `tax_amount = -50` and
`subtotal = -20` and the permit with `subtotal = -5` all validate
successfully, although the claim says any negative monetary field raises. -/
theorem negative_field_validation_counterexample :
    negTaxInvoice.tax_amount = -50 ∧ negTaxInvoice.subtotal = -20 ∧
    invoiceValidate negTaxInvoice = Except.ok () ∧
    negSubPermit.subtotal = -5 ∧ importPermitValidate negSubPermit = Except.ok () := by
  decide

unseal Rat.mul Rat.inv Rat.add Rat.sub in
/-- C7: the string branch of `_parse_decimal` substitutes the default when
the cleaned string (whitespace trimmed; `,`, `¥`, `円` removed) is empty or a
bare dash, returns the exact decimal value of the cleaned string otherwise,
and raises an error naming the field and the raw value when the string it
parses is not a valid decimal literal; in particular `"¥3,000"` parses to
exactly 3000. -/
theorem parse_decimal_semantics :
    (∀ (field dflt s : String),
      (pyCleaned s = "" ∨ pyCleaned s = "-" ∨ pyCleaned s = "--") →
      parseDecimalStr field dflt s =
        (match pyDecimalParse dflt with
         | some q => Except.ok q
         | none => Except.error (DErr.cannotConvert field s))) ∧
    (∀ (field dflt s : String),
      ¬ (pyCleaned s = "" ∨ pyCleaned s = "-" ∨ pyCleaned s = "--") →
      parseDecimalStr field dflt s =
        (match pyDecimalParse (pyCleaned s) with
         | some q => Except.ok q
         | none => Except.error (DErr.cannotConvert field s))) ∧
    parseDecimalStr "amount" "0" "¥3,000" = Except.ok 3000 ∧
    parseDecimalStr "total_amount" "0" "abc" =
      Except.error (DErr.cannotConvert "total_amount" "abc") := by
  refine ⟨?_, ?_, by decide, by decide⟩
  · intro field dflt s h
    unfold parseDecimalStr cleanedOrDefault
    rw [if_pos h]
  · intro field dflt s h
    unfold parseDecimalStr cleanedOrDefault
    rw [if_neg h]

unseal Rat.mul Rat.inv Rat.add Rat.sub in
/-- C7 witness: the default path on a bare dash and the direct path on a
currency-formatted string. -/
theorem parse_decimal_semantics_witness :
    parseDecimalStr "f" "1" " - " =
      (match pyDecimalParse "1" with
       | some q => Except.ok q
       | none => Except.error (DErr.cannotConvert "f" " - ")) ∧
    parseDecimalStr "g" "0" " 12円 " =
      (match pyDecimalParse (pyCleaned " 12円 ") with
       | some q => Except.ok q
       | none => Except.error (DErr.cannotConvert "g" " 12円 ")) :=
  ⟨parse_decimal_semantics.1 "f" "1" " - " (by decide),
   parse_decimal_semantics.2.1 "g" "0" " 12円 " (by decide)⟩

/-- C5 (amended): in the invoice line-item extractor both numeric cells fall
back silently — an amount cell whose cleaned string is not a valid decimal
literal yields amount 0 and a quantity cell that fails to parse yields
quantity 1 — and the row still produces an item without any error. -/
theorem invoice_item_silent_fallbacks :
    ∀ (nm a q u : String),
      strTrim nm ≠ "" → lastCharIs '：' (strTrim nm) = false →
      nm ≠ "" → a ≠ "" → q ≠ "" → u ≠ "" →
      pyDecimalParse (invoiceCleanAmount (strTrim a)) = none →
      pyDecimalParse (strTrim q) = none →
      processRow [some nm, some a, some q, some u] =
        Except.ok (some ⟨strTrim nm, 0, 1, strTrim u⟩) := by
  intro nm a q u hnmt hcolon hnm ha hq hu hpa hpq
  have h0 : rowCellStripped [some nm, some a, some q, some u] 0 "" = strTrim nm := by
    unfold rowCellStripped
    simp [hnm]
  have h1 : rowCellStripped [some nm, some a, some q, some u] 1 "¥0" = strTrim a := by
    unfold rowCellStripped
    simp [ha]
  have h2 : rowCellStripped [some nm, some a, some q, some u] 2 "1" = strTrim q := by
    unfold rowCellStripped
    simp [hq]
  have h3 : rowCellStripped [some nm, some a, some q, some u] 3 "件" = strTrim u := by
    unfold rowCellStripped
    simp [hu]
  have hsc : stripColon (strTrim nm) = strTrim nm := by
    unfold stripColon
    rw [hcolon]
    rfl
  unfold processRow
  rw [if_neg (by simp), h0, h1, h2, h3, hsc, if_neg hnmt]
  unfold parseAmountInv
  rw [hpa, hpq]
  unfold mkInvoiceItem InvoiceItem.validate
  rw [if_neg hnmt]
  norm_num

/-- C5 witness: a row whose amount cell is "abc" and quantity cell is "xy". -/
theorem invoice_item_silent_fallbacks_witness :
    processRow [some "通関申告料", some "abc", some "xy", some "件"] =
      Except.ok (some ⟨strTrim "通関申告料", 0, 1, strTrim "件"⟩) :=
  invoice_item_silent_fallbacks "通関申告料" "abc" "xy" "件" (by decide) (by decide)
    (by decide) (by decide) (by decide) (by decide) (by decide) (by decide)

unseal Rat.mul Rat.inv Rat.add Rat.sub in
/-- C5 counterexample: a qualifying table row whose amount cell is the
invalid literal "abc" does not make extraction fail with an error naming the
field — extraction succeeds and the item's amount is silently 0. -/
theorem invoice_amount_fallback_counterexample :
    extractInvoiceItems [[[some "請求項目", some "請求金額", some "数量", some "単位"],
      [some "通関申告料", some "abc", some "2", some "件"]]] =
      Except.ok [⟨"通関申告料", 0, 2, "件"⟩] := by
  decide

theorem exBind_error {α β : Type} (e : String) (f : α → Except String β) :
    exBind (Except.error e) f = Except.error e := rfl

theorem exBind_ok {α β : Type} (a : α) (f : α → Except String β) :
    exBind (Except.ok a) f = f a := rfl

unseal Rat.mul Rat.inv Rat.add Rat.sub in
/-- C6 (amended): the import-permit post-processing defaults every absent
top-level field (empty string / zero / empty items) when a well-formed
`issue_date` string is present, and a missing or malformed `issue_date`
always makes the parse fail; however an items entry with an absent
`item_name` does not default successfully — the item validation rejects the
empty name (see the counterexample). -/
theorem gemini_defaults_except_issue_date :
    (∀ (s : String) (d : Date), parseDateYMD s = some d →
      geminiParse (J.obj [("issue_date", J.str s)]) true =
        Except.ok ⟨"", d, "", "", 0, 0, 0, 0, 0, [], true⟩) ∧
    (∀ fields : List (String × J), issueDateOk fields = none →
      isErr (geminiParse (J.obj fields) true) = true) := by
  constructor
  · intro s d h
    have hs : s ≠ "" := by
      intro he
      rw [he, show parseDateYMD "" = none from by decide] at h
      exact Option.noConfusion h
    have h1 : geminiItemsJ [("issue_date", J.str s)] = Except.ok [] := rfl
    have h3 : geminiIssueDate [("issue_date", J.str s)] = Except.ok d := by
      have hl : jLookup [("issue_date", J.str s)] "issue_date" = some (J.str s) := rfl
      unfold geminiIssueDate
      rw [hl]
      simp only [geminiIssueDateOf, if_neg hs, h]
    have h4 : ∀ f : String, liftDErr (parseDecimalJ f "0" none) = Except.ok 0 :=
      fun f => rfl
    have hlk : ∀ k : String, k ≠ "issue_date" →
        jLookup [("issue_date", J.str s)] k = none := by
      intro k hk
      unfold jLookup
      rw [List.find?_cons_of_neg _ (by simpa using fun he => hk he.symm)]
      rfl
    have hg : ∀ k dflt : String, k ≠ "issue_date" →
        jGetStr [("issue_date", J.str s)] k dflt = dflt := by
      intro k dflt hk
      unfold jGetStr
      rw [hlk k hk]
    show geminiParseObj [("issue_date", J.str s)] true = _
    unfold geminiParseObj
    simp only [h1, geminiItemsOfJ, h3,
      hlk "total_amount" (by decide), hlk "customs_duty" (by decide),
      hlk "consumption_tax" (by decide), hlk "local_consumption_tax" (by decide),
      hlk "subtotal" (by decide), h4,
      hg "permit_number" "" (by decide), hg "importer_name" "" (by decide),
      hg "tracking_number" "" (by decide), exBind_ok]
    rfl
  · intro fields h
    show isErr (geminiParseObj fields true) = true
    unfold geminiParseObj
    have hdate : isErr (geminiIssueDate fields) = true := by
      unfold geminiIssueDate
      unfold issueDateOk at h
      cases hl : jLookup fields "issue_date" with
      | none => rfl
      | some j =>
        rw [hl] at h
        cases j with
        | str s =>
          simp only [issueDateOkOf] at h
          simp only [geminiIssueDateOf]
          by_cases hse : s = ""
          · simp [hse, isErr]
          · rw [if_neg hse] at h
            simp [hse, h, isErr]
        | null => rfl
        | num q =>
          simp only [geminiIssueDateOf]
          by_cases hq : q = 0 <;> simp [hq, isErr]
        | bool b => cases b <;> rfl
        | arr l =>
          simp only [geminiIssueDateOf]
          cases hb : l.isEmpty <;> simp [hb, isErr]
        | obj l =>
          simp only [geminiIssueDateOf]
          cases hb : l.isEmpty <;> simp [hb, isErr]
    cases hij : geminiItemsJ fields with
    | error e => simp [exBind_error, isErr]
    | ok itemsJ =>
      simp only [exBind_ok]
      cases hio : geminiItemsOfJ itemsJ with
      | error e => simp [exBind_error, isErr]
      | ok items =>
        simp only [exBind_ok]
        cases hd : geminiIssueDate fields with
        | error e => simp [exBind_error, isErr]
        | ok dd =>
          rw [hd] at hdate
          exact absurd hdate (by simp [isErr])

unseal Rat.mul Rat.inv Rat.add Rat.sub in
/-- C6 witness: a response containing only a valid issue date parses to the
all-defaults permit, and a response with no issue date fails. -/
theorem gemini_defaults_except_issue_date_witness :
    geminiParse (J.obj [("issue_date", J.str "2025-01-02")]) true =
      Except.ok ⟨"", ⟨2025, 1, 2⟩, "", "", 0, 0, 0, 0, 0, [], true⟩ ∧
    isErr (geminiParse (J.obj []) true) = true :=
  ⟨gemini_defaults_except_issue_date.1 "2025-01-02" ⟨2025, 1, 2⟩ (by decide),
   gemini_defaults_except_issue_date.2 [] (by decide)⟩

unseal Rat.mul Rat.inv Rat.add Rat.sub in
/-- C6 counterexample: a response with a valid issue date and a single item
object with every item field absent does not succeed with defaults — the
empty defaulted `item_name` fails the item validation, so the parse errors. -/
theorem gemini_missing_item_name_counterexample :
    parseDateYMD "2025-10-23" = some ⟨2025, 10, 23⟩ ∧
    isErr (geminiParse (J.obj [("issue_date", J.str "2025-10-23"),
      ("items", J.arr [J.obj []])]) true) = true :=
  ⟨by decide, by decide⟩
